import Mathlib

/-!
Verification development for the CAN message-routing pipeline of
`can_manager.py` (class `CANManager`).

The embedding translates the pipeline's operations into pure Lean
functions:

* `Frame` models a `can.Message` (arbitration id, payload bytes,
  extended/remote flags).
* Python exceptions are modelled with `Except PyErr`.
* A `queue.Queue` is modelled as a `List` (put = append on the right,
  get = take from the left); `CANManager.task_queues` (a Python dict of
  queues) is a partial map `TaskQueues`.
* Each thread's loop body is modelled as a function from the loop's
  inputs to its state change; a whole run of the loop over a finite
  trace of inputs is the fold of the body over that trace.
-/

/-- Exceptions that the modelled code can raise or that the spec's error
taxonomy names.  The source file `can_manager.py` defines no exception
classes of its own; `configurationError` and `notInitializedError` appear
only in the spec's taxonomy and are included so that statements about
them can be written. -/
inductive PyErr where
  | canError
  | valueError
  | exc (msg : String)
  | configurationError
  | notInitializedError
deriving DecidableEq, Repr

/-- A CAN frame, modelling `can.Message`: `arbitration_id`, `data`
(payload bytes), `is_extended_id`, `is_remote_frame`. -/
structure Frame where
  arbitration_id : Nat
  data : List Nat
  is_extended_id : Bool
  is_remote_frame : Bool
deriving DecidableEq, Repr

/-- `CANManager.task_queues`: a dict mapping task names to queues.
`none` means the name is not a key of the dict; `some q` is the queue's
current content (front of the queue at the head of the list).  The
element type is a parameter because the dispatcher is used both on frame
values (`α = Frame`) and, for the aliasing analysis, on object
references (`α = Nat`). -/
def TaskQueues (α : Type) : Type := String → Option (List α)

/-- One iteration of the inner `for task_name, can_ids in node_filters.items()`
loop of `CANManager._dispatcher`:

```
if msg.arbitration_id in can_ids:
    if task_name in self.task_queues:
        self.task_queues[task_name].put(msg)
        routed = True
```

`acc` is the pair (current task queues, current `routed` flag); `idOf`
extracts `msg.arbitration_id` from a queue element. -/
def dispatchStep {α : Type} (idOf : α → Nat) (msg : α)
    (acc : TaskQueues α × Bool) (entry : String × List Nat) :
    TaskQueues α × Bool :=
  if idOf msg ∈ entry.2 then
    match acc.1 entry.1 with
    | some q => (fun n => if n = entry.1 then some (q ++ [msg]) else acc.1 n, true)
    | none => acc
  else acc

/-- The body of `CANManager._dispatcher` for one message dequeued from
the incoming queue: iterate over the `node_filters` dict entries (in
dict order) starting with `routed = False`; returns the updated task
queues and the final `routed` flag (when it is `false` the source only
emits a debug log — `logger.debug("Unhandled message ...")` — and
continues). -/
def dispatchOne {α : Type} (idOf : α → Nat) (filters : List (String × List Nat))
    (tq : TaskQueues α) (msg : α) : TaskQueues α × Bool :=
  filters.foldl (dispatchStep idOf msg) (tq, false)

/-- A run of the `_dispatcher` loop over a finite incoming-queue trace:
messages are dequeued in FIFO order and each is routed by `dispatchOne`. -/
def dispatcherRun {α : Type} (idOf : α → Nat) (filters : List (String × List Nat))
    (tq : TaskQueues α) (msgs : List α) : TaskQueues α :=
  msgs.foldl (fun acc m => (dispatchOne idOf filters acc m).1) tq

section DispatchLemmas

variable {α : Type}

lemma dispatchStep_not_mem {idOf : α → Nat} {msg : α} {acc : TaskQueues α × Bool}
    {e : String × List Nat} (h : idOf msg ∉ e.2) :
    dispatchStep idOf msg acc e = acc := by
  simp [dispatchStep, h]

lemma dispatchStep_none {idOf : α → Nat} {msg : α} {acc : TaskQueues α × Bool}
    {e : String × List Nat} (h1 : idOf msg ∈ e.2) (h2 : acc.1 e.1 = none) :
    dispatchStep idOf msg acc e = acc := by
  simp [dispatchStep, h1, h2]

lemma dispatchStep_some {idOf : α → Nat} {msg : α} {acc : TaskQueues α × Bool}
    {e : String × List Nat} {q : List α} (h1 : idOf msg ∈ e.2) (h2 : acc.1 e.1 = some q) :
    dispatchStep idOf msg acc e =
      (fun n => if n = e.1 then some (q ++ [msg]) else acc.1 n, true) := by
  simp [dispatchStep, h1, h2]

/-- The dispatcher never touches a queue whose name is not among the
filter entries it iterates over. -/
lemma foldl_dispatchStep_ne {idOf : α → Nat} {msg : α}
    (filters : List (String × List Nat)) (acc : TaskQueues α × Bool) (t : String)
    (h : ∀ e ∈ filters, e.1 ≠ t) :
    (filters.foldl (dispatchStep idOf msg) acc).1 t = acc.1 t := by
  induction filters generalizing acc with
  | nil => rfl
  | cons e fs ih =>
    have he : e.1 ≠ t := h e (List.mem_cons_self e fs)
    have hfs : ∀ e' ∈ fs, e'.1 ≠ t := fun e' h' => h e' (List.mem_cons_of_mem e h')
    rw [List.foldl_cons, ih _ hfs]
    by_cases h1 : idOf msg ∈ e.2
    · cases h2 : acc.1 e.1 with
      | none => rw [dispatchStep_none h1 h2]
      | some q => rw [dispatchStep_some h1 h2]; simp [Ne.symm he]
    · rw [dispatchStep_not_mem h1]

/-- Routing only appends to existing queues: whether a name is a key of
`task_queues` is invariant across one dispatch step. -/
lemma dispatchStep_isSome {idOf : α → Nat} {msg : α}
    (acc : TaskQueues α × Bool) (e : String × List Nat) (t : String) :
    ((dispatchStep idOf msg acc e).1 t).isSome = (acc.1 t).isSome := by
  by_cases h1 : idOf msg ∈ e.2
  · cases h2 : acc.1 e.1 with
    | none => rw [dispatchStep_none h1 h2]
    | some q =>
      rw [dispatchStep_some h1 h2]
      by_cases ht : t = e.1
      · subst ht; simp [h2]
      · simp [ht]
  · rw [dispatchStep_not_mem h1]

/-- Characterisation of the `routed` flag computed by
`CANManager._dispatcher` for one message: it is true exactly when some
filter entry contains the message's id and names a registered task
queue (registration judged against the queues at loop entry, which is
sound because routing never adds or removes queue keys). -/
lemma foldl_dispatchStep_routed {idOf : α → Nat} {msg : α}
    (filters : List (String × List Nat)) (tq : TaskQueues α) (b : Bool) :
    (filters.foldl (dispatchStep idOf msg) (tq, b)).2 =
      (b || filters.any fun e => decide (idOf msg ∈ e.2) && (tq e.1).isSome) := by
  induction filters generalizing tq b with
  | nil => simp
  | cons e fs ih =>
    rw [List.foldl_cons]
    by_cases h1 : idOf msg ∈ e.2
    · cases h2 : tq e.1 with
      | none =>
        rw [dispatchStep_none h1 h2, ih]
        simp [h1, h2]
      | some q =>
        rw [dispatchStep_some h1 h2, ih]
        simp [h1, h2]
    · rw [dispatchStep_not_mem h1, ih]
      simp [h1]

/-- Main characterisation of one dispatch: provided the filter dict has
no duplicate task names (a Python dict cannot), the queue of a task `t`
after dispatching `msg` is its old queue with `msg` appended when some
entry for `t` contains the message's id, and is unchanged otherwise
(in particular a queue not registered under `t` stays `none`). -/
lemma foldl_dispatchStep_queue {idOf : α → Nat} {msg : α}
    (filters : List (String × List Nat)) (hnd : (filters.map Prod.fst).Nodup)
    (tq : TaskQueues α) (b : Bool) (t : String) :
    (filters.foldl (dispatchStep idOf msg) (tq, b)).1 t =
      if ∃ e ∈ filters, e.1 = t ∧ idOf msg ∈ e.2 then
        (tq t).map (fun q => q ++ [msg])
      else tq t := by
  induction filters generalizing tq b with
  | nil => simp
  | cons e fs ih =>
    rw [List.map_cons, List.nodup_cons] at hnd
    obtain ⟨hnotin, hnd'⟩ := hnd
    rw [List.foldl_cons]
    by_cases h1 : idOf msg ∈ e.2
    · by_cases ht : e.1 = t
      · subst ht
        have hex : ∃ e' ∈ e :: fs, e'.1 = e.1 ∧ idOf msg ∈ e'.2 :=
          ⟨e, List.mem_cons_self e fs, rfl, h1⟩
        rw [if_pos hex]
        cases h2 : tq e.1 with
        | none =>
          rw [dispatchStep_none h1 h2, ih hnd', h2]
          split <;> simp
        | some q =>
          have hne : ∀ e' ∈ fs, e'.1 ≠ e.1 := by
            intro e' h' hcontra
            exact hnotin (hcontra ▸ List.mem_map_of_mem Prod.fst h')
          rw [dispatchStep_some h1 h2, foldl_dispatchStep_ne fs _ e.1 hne]
          simp [h2]
      · have htne : t ≠ e.1 := fun hc => ht hc.symm
        have hiff : (∃ e' ∈ fs, e'.1 = t ∧ idOf msg ∈ e'.2) ↔
            (∃ e' ∈ e :: fs, e'.1 = t ∧ idOf msg ∈ e'.2) := by
          constructor
          · rintro ⟨e', h', hp⟩
            exact ⟨e', List.mem_cons_of_mem e h', hp⟩
          · rintro ⟨e', h', hp⟩
            rcases List.mem_cons.mp h' with rfl | hmem
            · exact absurd hp.1 ht
            · exact ⟨e', hmem, hp⟩
        cases h2 : tq e.1 with
        | none =>
          rw [dispatchStep_none h1 h2, ih hnd']
          split
          · rw [if_pos (hiff.mp (by assumption))]
          · rw [if_neg (fun hc => (by assumption : ¬_) (hiff.mpr hc))]
        | some q =>
          rw [dispatchStep_some h1 h2, ih hnd']
          simp only [hiff]
          simp [htne]
    · have hiff : (∃ e' ∈ fs, e'.1 = t ∧ idOf msg ∈ e'.2) ↔
          (∃ e' ∈ e :: fs, e'.1 = t ∧ idOf msg ∈ e'.2) := by
        constructor
        · rintro ⟨e', h', hp⟩
          exact ⟨e', List.mem_cons_of_mem e h', hp⟩
        · rintro ⟨e', h', hp⟩
          rcases List.mem_cons.mp h' with rfl | hmem
          · exact absurd hp.2 h1
          · exact ⟨e', hmem, hp⟩
      rw [dispatchStep_not_mem h1, ih hnd']
      split
      · rw [if_pos (hiff.mp (by assumption))]
      · rw [if_neg (fun hc => (by assumption : ¬_) (hiff.mpr hc))]

/-- `dispatchOne` form of `foldl_dispatchStep_queue`. -/
lemma dispatchOne_queue {idOf : α → Nat}
    (filters : List (String × List Nat)) (hnd : (filters.map Prod.fst).Nodup)
    (tq : TaskQueues α) (msg : α) (t : String) :
    (dispatchOne idOf filters tq msg).1 t =
      if ∃ e ∈ filters, e.1 = t ∧ idOf msg ∈ e.2 then
        (tq t).map (fun q => q ++ [msg])
      else tq t :=
  foldl_dispatchStep_queue filters hnd tq false t

/-- FIFO per task queue: running the dispatcher over an incoming trace
extends a registered task's queue by exactly the matching messages of
the trace, in arrival order. -/
lemma dispatcherRun_fifo {idOf : α → Nat}
    (filters : List (String × List Nat)) (hnd : (filters.map Prod.fst).Nodup)
    (msgs : List α) (tq : TaskQueues α) (q : List α) (t : String)
    (hq : tq t = some q) :
    dispatcherRun idOf filters tq msgs t =
      some (q ++ msgs.filter fun m => decide (∃ e ∈ filters, e.1 = t ∧ idOf m ∈ e.2)) := by
  induction msgs generalizing tq q with
  | nil => simpa [dispatcherRun] using hq
  | cons m ms ih =>
    rw [dispatcherRun, List.foldl_cons]
    by_cases hm : ∃ e ∈ filters, e.1 = t ∧ idOf m ∈ e.2
    · have hstep : (dispatchOne idOf filters tq m).1 t = some (q ++ [m]) := by
        rw [dispatchOne_queue filters hnd tq m t, if_pos hm, hq]
        rfl
      have := ih _ _ hstep
      rw [dispatcherRun] at this
      rw [this, List.filter_cons]
      simp [hm]
    · have hstep : (dispatchOne idOf filters tq m).1 t = some q := by
        rw [dispatchOne_queue filters hnd tq m t, if_neg hm, hq]
      have := ih _ _ hstep
      rw [dispatcherRun] at this
      rw [this, List.filter_cons]
      simp [hm]

end DispatchLemmas

/-! ## Task worker (`task_worker` closure in `CANManager.add_processing_task`) -/

/-- The frame built by `task_worker` for one output id:
`can.Message(arbitration_id=output_id, data=result, is_extended_id=False)`.
`can.Message` leaves `is_remote_frame` at its default `False`, so the
response is a standard data frame. -/
def mkResponse (output_id : Nat) (result : List Nat) : Frame :=
  { arbitration_id := output_id
    data := result
    is_extended_id := false
    is_remote_frame := false }

/-- The body of the `task_worker` loop for one message dequeued from the
task's queue, acting on the outgoing queue:

```
try:
    result = processing_func(msg)
    if result is not None and output_node_ids:
        for output_id in output_node_ids:
            response = can.Message(arbitration_id=output_id, data=result,
                                   is_extended_id=False)
            self.outgoing_queue.put(response)
except Exception as e:
    logger.error(...)
```

`processing_func` may raise (modelled by `Except`); the bare
`except Exception` catches any error, logs it, and leaves the outgoing
queue untouched.  `output_node_ids` is `none` when the caller left the
parameter at its Python default `None`; Python's truthiness test
`and output_node_ids` is false for both `None` and the empty list. -/
def workerProcessOne (processing_func : Frame → Except PyErr (Option (List Nat)))
    (output_node_ids : Option (List Nat)) (outgoing : List Frame) (msg : Frame) :
    List Frame :=
  match processing_func msg with
  | .error _ => outgoing
  | .ok none => outgoing
  | .ok (some result) =>
    match output_node_ids with
    | none => outgoing
    | some ids =>
      if ids.isEmpty then outgoing
      else outgoing ++ ids.map fun output_id => mkResponse output_id result

/-- A run of the `task_worker` loop over a finite trace of messages
dequeued from the task's queue, in FIFO order. -/
def workerRun (processing_func : Frame → Except PyErr (Option (List Nat)))
    (output_node_ids : Option (List Nat)) (outgoing : List Frame)
    (msgs : List Frame) : List Frame :=
  msgs.foldl (workerProcessOne processing_func output_node_ids) outgoing

/-! ## Ingress reader (`CANManager._read_can_bus`) -/

/-- One iteration of the `_read_can_bus` loop:

```
message = self.bus.recv(timeout=0.1)
if message is None:
    continue
self.incoming_queue.put(message)
```

`recvResult` is what `bus.recv` did this iteration: `.ok none` is a
timeout, `.ok (some m)` a received frame, `.error e` a raised error.
The source wraps `bus.recv` in no `try`/`except`, so an error
propagates out of the loop (killing the reader thread). -/
def readerIter (recvResult : Except PyErr (Option Frame))
    (incoming : List Frame) : Except PyErr (List Frame) :=
  match recvResult with
  | .error e => .error e
  | .ok none => .ok incoming
  | .ok (some m) => .ok (incoming ++ [m])

/-- A run of the `_read_can_bus` loop over a finite trace of `bus.recv`
outcomes: the loop stops (with the raised error) at the first iteration
whose `recv` raises, and otherwise accumulates frames into the
incoming queue. -/
def readerRun (recvs : List (Except PyErr (Option Frame)))
    (incoming : List Frame) : Except PyErr (List Frame) :=
  match recvs with
  | [] => .ok incoming
  | r :: rs =>
    match readerIter r incoming with
    | .error e => .error e
    | .ok inc => readerRun rs inc

/-! ## Pipeline controller (`CANManager` lifecycle) -/

/-- The kind of a thread appended to `self.threads` by `CANManager.start`:
the reader (`_read_can_bus`), the sender (`_send_can_bus`), the
dispatcher (`_dispatcher`, carrying the `node_filters` passed as its
thread argument), or one worker per entry of `processing_tasks`. -/
inductive ThreadKind where
  | reader
  | sender
  | dispatcher (node_filters : List (String × List Nat))
  | worker
deriving DecidableEq, Repr

/-- The closure data of one processing task: `add_processing_task`'s
arguments captured by the returned `task_worker` closure. -/
structure TaskSpec where
  task_name : String
  input_node_ids : List Nat
  processing_func : Frame → Except PyErr (Option (List Nat))
  output_node_ids : Option (List Nat)

/-- The mutable state of a `CANManager` instance (`__init__` fields).
`busInitialized` models the truthiness of `self.bus` (set by
`initialize()`, `None` before); queues are lists; `threads` records the
threads appended by `start`. -/
structure ManagerState where
  busInitialized : Bool
  incoming_queue : List Frame
  outgoing_queue : List Frame
  task_queues : TaskQueues Frame
  stopEventSet : Bool
  threads : List ThreadKind

/-- `CANManager.add_processing_task`: unconditionally installs a fresh
empty queue under `task_name` —

```
self.task_queues[task_name] = queue.Queue()
```

— then defines and returns the `task_worker` closure.  The body contains
no precondition check and no `raise`, so the result is always `.ok`
(the `Except` return type records that the modelled Python method could
in principle raise). -/
def add_processing_task (st : ManagerState) (task_name : String)
    (input_node_ids : List Nat)
    (processing_func : Frame → Except PyErr (Option (List Nat)))
    (output_node_ids : Option (List Nat)) :
    Except PyErr (ManagerState × TaskSpec) :=
  .ok
    ({ st with
        task_queues := fun n =>
          if n = task_name then some [] else st.task_queues n },
      { task_name := task_name
        input_node_ids := input_node_ids
        processing_func := processing_func
        output_node_ids := output_node_ids })

/-- `CANManager.start`:

```
if not self.bus:
    logger.error("CAN bus not initialized. Call initialize() first.")
    return False
self.threads.append(Thread(target=self._read_can_bus, ...))
self.threads.append(Thread(target=self._send_can_bus, ...))
self.threads.append(Thread(target=self._dispatcher, args=(node_filters,), ...))
for task_func in processing_tasks:
    self.threads.append(Thread(target=task_func, ...))
...
return True
```

Returns the boolean result and the updated state; the body raises
nothing, so the result is always `.ok`. -/
def start (st : ManagerState) (node_filters : List (String × List Nat))
    (processing_tasks : List TaskSpec) : Except PyErr (Bool × ManagerState) :=
  if st.busInitialized = false then
    .ok (false, st)
  else
    .ok (true,
      { st with
          threads := st.threads ++
            [ThreadKind.reader, ThreadKind.sender,
              ThreadKind.dispatcher node_filters] ++
            processing_tasks.map fun _ => ThreadKind.worker })

/-- Observable actions of `CANManager.stop`, in program order.
`joinThread k t` is `thread.join(timeout=...)` with timeout `t`
milliseconds; `forceKillThread` has no counterpart in the source and is
used to state that no thread is ever force-killed. -/
inductive StopEvent where
  | setStopSignal
  | joinThread (kind : ThreadKind) (timeoutMs : Nat)
  | shutdownBus
  | forceKillThread (kind : ThreadKind)
deriving DecidableEq, Repr

/-- `CANManager.stop`:

```
self.stop_event.set()
for thread in self.threads:
    thread.join(timeout=2.0)
if self.bus:
    self.bus.shutdown()
```

It takes no timeout argument; each join uses the fixed timeout
`2.0` seconds (2000 ms).  Returns the updated state and the list of
observable actions in order. -/
def stop (st : ManagerState) : ManagerState × List StopEvent :=
  ({ st with stopEventSet := true },
    StopEvent.setStopSignal ::
      (st.threads.map (fun t => StopEvent.joinThread t 2000) ++
        if st.busInitialized then [StopEvent.shutdownBus] else []))

/-- Modelled from the spec: the spec's `stop(drain_timeout)` operation
("sets the stop signal ..., then waits up to `drain_timeout` for every
spawned worker to exit, then releases BusPort"), with the caller-chosen
`drain_timeout` (in ms) used as the join bound for every spawned
thread.  The source's `stop` takes no such parameter; this definition
exists to compare the spec's claimed interface with the code's. -/
def stopSpec (drain_timeout : Nat) (st : ManagerState) :
    ManagerState × List StopEvent :=
  ({ st with stopEventSet := true },
    StopEvent.setStopSignal ::
      (st.threads.map (fun t => StopEvent.joinThread t drain_timeout) ++
        if st.busInitialized then [StopEvent.shutdownBus] else []))

/-! ## Concrete fixtures (modelled on the example usage at the bottom of
`can_manager.py`: tasks `task_1` and `task_2`, ids `0x100`/`0x200`). -/

/-- A standard data frame with id `0x200`, as in the spec's fan-out
scenario. -/
def frame200 : Frame :=
  { arbitration_id := 0x200
    data := [0x01, 0x02]
    is_extended_id := false
    is_remote_frame := false }

/-- A standard data frame with id `0x100`. -/
def frame100 : Frame :=
  { arbitration_id := 0x100
    data := [0x00, 0xFF]
    is_extended_id := false
    is_remote_frame := false }

/-- A standard data frame with id `0x0`, used as the poisoned input of
the fault-isolation witness. -/
def frameZero : Frame :=
  { arbitration_id := 0x0
    data := []
    is_extended_id := false
    is_remote_frame := false }

/-- A standard data frame with id `0x300`, matching no registered
task. -/
def frame300 : Frame :=
  { arbitration_id := 0x300
    data := []
    is_extended_id := false
    is_remote_frame := false }

/-- A routing table in which both tasks subscribe to id `0x200`. -/
def filtersTwoTasks : List (String × List Nat) :=
  [("task_1", [0x100, 0x200]), ("task_2", [0x200, 0x201])]

/-- A routing table whose only entry names a task that is never
registered. -/
def filtersGhost : List (String × List Nat) :=
  [("ghost", [0x300])]

/-- Task queues with `task_1` and `task_2` registered and empty. -/
def tqTwoTasks : TaskQueues Frame := fun n =>
  if n = "task_1" then some []
  else if n = "task_2" then some []
  else none

/-- Reference-level task queues (`α = Nat`) with `task_1` and `task_2`
registered and empty. -/
def tqRefTwoTasks : TaskQueues Nat := fun n =>
  if n = "task_1" then some []
  else if n = "task_2" then some []
  else none

/-- A heap mapping every object reference to `frame200`. -/
def heapAll200 : Nat → Frame := fun _ => frame200

/-- A processing function that never returns a result. -/
def funcNone : Frame → Except PyErr (Option (List Nat)) := fun _ => Except.ok none

/-- A processing function that raises on id `0x0` and otherwise echoes
the payload (mirrors a handler that chokes on one malformed input). -/
def funcRaisesOnZero : Frame → Except PyErr (Option (List Nat)) := fun msg =>
  if msg.arbitration_id = 0 then Except.error (PyErr.exc "boom")
  else Except.ok (some msg.data)

/-- The byte-wise XOR `0xFF` handler (`example_processing_task_1`). -/
def funcInvert : Frame → Except PyErr (Option (List Nat)) := fun msg =>
  Except.ok (some (msg.data.map fun b => b ^^^ 0xFF))

/-- A manager state as it looks after `initialize()`, two
registrations, and `start()`: bus up, `task_1` registered with one
pending frame, four threads spawned. -/
def stStarted : ManagerState :=
  { busInitialized := true
    incoming_queue := []
    outgoing_queue := []
    task_queues := fun n => if n = "task_1" then some [frame200] else none
    stopEventSet := false
    threads := [ThreadKind.reader, ThreadKind.sender,
      ThreadKind.dispatcher filtersTwoTasks, ThreadKind.worker] }

/-- A freshly constructed manager whose `initialize()` was never called
(or failed): `self.bus` is still `None`. -/
def stNoBus : ManagerState :=
  { busInitialized := false
    incoming_queue := []
    outgoing_queue := []
    task_queues := fun _ => none
    stopEventSet := false
    threads := [] }

/-! ## Claim theorems -/

/-- Claim C1: a frame dequeued by the dispatcher whose identifier is in
the id lists of exactly the routing entries naming tasks with
registered queues is enqueued exactly once into each of those queues
and into no other queue.  Stated as a per-queue characterisation: for
every task name `t`, the queue registered under `t` gains exactly one
copy of `msg` at its tail when some routing entry for `t` contains
`msg.arbitration_id`, and is left unchanged otherwise (an unregistered
`t` stays unregistered, since `Option.map` preserves `none`).  A frame
matching zero entries therefore changes no queue, and the dispatch
still returns normally — zero matches is not an error.  The `Nodup`
hypothesis reflects that `node_filters` is a Python dict, whose keys
are unique. -/
theorem claim1_dispatch_fanout (filters : List (String × List Nat))
    (hnd : (filters.map Prod.fst).Nodup) (tq : TaskQueues Frame)
    (msg : Frame) (t : String) :
    (dispatchOne Frame.arbitration_id filters tq msg).1 t =
      if ∃ e ∈ filters, e.1 = t ∧ msg.arbitration_id ∈ e.2 then
        (tq t).map (fun q => q ++ [msg])
      else tq t :=
  dispatchOne_queue filters hnd tq msg t

/-- Witness for C1: both `task_1` and `task_2` subscribe to `0x200`; a
frame with id `0x200` is appended once to each of their queues. -/
theorem claim1_dispatch_fanout_witness :
    (dispatchOne Frame.arbitration_id filtersTwoTasks tqTwoTasks frame200).1 "task_1" =
      (if ∃ e ∈ filtersTwoTasks, e.1 = "task_1" ∧ frame200.arbitration_id ∈ e.2 then
        (tqTwoTasks "task_1").map (fun q => q ++ [frame200])
      else tqTwoTasks "task_1") :=
  claim1_dispatch_fanout filtersTwoTasks (by decide) tqTwoTasks frame200 "task_1"

/-- Claim C8: frames placed on the incoming queue are delivered to each
task queue in incoming (FIFO) order.  Stated as: after the dispatcher
consumes the incoming trace `msgs`, the queue registered under `t`
equals its old content followed by exactly the matching messages of
`msgs` in arrival order — so any two frames `A` before `B` in the
incoming queue that are both routed to `t` appear in `t`'s queue with
`A` before `B`.  Nothing is claimed across distinct task queues. -/
theorem claim8_fifo_per_queue (filters : List (String × List Nat))
    (hnd : (filters.map Prod.fst).Nodup) (msgs : List Frame)
    (tq : TaskQueues Frame) (q : List Frame) (t : String)
    (hq : tq t = some q) :
    dispatcherRun Frame.arbitration_id filters tq msgs t =
      some (q ++ msgs.filter fun m =>
        decide (∃ e ∈ filters, e.1 = t ∧ m.arbitration_id ∈ e.2)) :=
  dispatcherRun_fifo filters hnd msgs tq q t hq

/-- Witness for C8: dispatching `[frame200, frame100, frame200]` leaves
`task_2`'s queue holding its matching frames in arrival order. -/
theorem claim8_fifo_per_queue_witness :
    dispatcherRun Frame.arbitration_id filtersTwoTasks tqTwoTasks
        [frame200, frame100, frame200] "task_2" =
      some ([] ++ [frame200, frame100, frame200].filter fun m =>
        decide (∃ e ∈ filtersTwoTasks, e.1 = "task_2" ∧ m.arbitration_id ∈ e.2)) :=
  claim8_fifo_per_queue filtersTwoTasks (by decide)
    [frame200, frame100, frame200] tqTwoTasks [] "task_2" (by decide)

/-- Claim C9 (amended): the dispatcher enqueues the very same frame
object — the same reference, not a copy — into every matching task
queue.  Here queue elements are object references (`Nat`) into a heap
of frames; `_dispatcher` calls `put(msg)` with the one reference it
dequeued, so the same reference `r` is appended to every matching
queue. -/
theorem claim9_shared_object (heap : Nat → Frame)
    (filters : List (String × List Nat)) (hnd : (filters.map Prod.fst).Nodup)
    (tq : TaskQueues Nat) (r : Nat) (t : String) :
    (dispatchOne (fun x => (heap x).arbitration_id) filters tq r).1 t =
      if ∃ e ∈ filters, e.1 = t ∧ (heap r).arbitration_id ∈ e.2 then
        (tq t).map (fun q => q ++ [r])
      else tq t :=
  dispatchOne_queue filters hnd tq r t

/-- Witness for C9's amended statement: fanning out the single object
reference `7` (a frame with id `0x200`) to both subscribing tasks. -/
theorem claim9_shared_object_witness :
    (dispatchOne (fun x => (heapAll200 x).arbitration_id) filtersTwoTasks
        tqRefTwoTasks 7).1 "task_1" =
      (if ∃ e ∈ filtersTwoTasks, e.1 = "task_1" ∧
          (heapAll200 7).arbitration_id ∈ e.2 then
        (tqRefTwoTasks "task_1").map (fun q => q ++ [7])
      else tqRefTwoTasks "task_1") :=
  claim9_shared_object heapAll200 filtersTwoTasks (by decide) tqRefTwoTasks 7 "task_1"

/-- Counterexample for C9 as stated: one frame object (reference `7`,
id `0x200`) fanned out to the two subscribing tasks ends up as the
*same* reference `7` in both task queues — the queues do not receive
independent copies, so two workers hold the same mutable frame
object. -/
theorem claim9_cex :
    (dispatchOne (fun x => (heapAll200 x).arbitration_id) filtersTwoTasks
        tqRefTwoTasks 7).1 "task_1" = some [7] ∧
    (dispatchOne (fun x => (heapAll200 x).arbitration_id) filtersTwoTasks
        tqRefTwoTasks 7).1 "task_2" = some [7] := by
  refine ⟨by decide, by decide⟩

/-- Claim C10: the routing table and the task-queue registry are
independent; a matching entry whose task has no registered queue
contributes no delivery and raises no error, and a frame none of whose
matching entries name a registered queue leaves every queue unchanged
and only sets `routed = False`, whereupon the source emits a debug log
(`logger.debug("Unhandled message ID: ...")`) and continues.  First
conjunct: the `routed` flag is true iff some entry both contains the id
and names a registered queue.  Second conjunct: any task that does not
match-and-hold-a-registered-queue keeps its (possibly absent) queue
unchanged. -/
theorem claim10_unregistered_entry_silent (filters : List (String × List Nat))
    (hnd : (filters.map Prod.fst).Nodup) (tq : TaskQueues Frame) (msg : Frame) :
    (dispatchOne Frame.arbitration_id filters tq msg).2 =
      (filters.any fun e =>
        decide (msg.arbitration_id ∈ e.2) && (tq e.1).isSome) ∧
    ∀ t, ¬(∃ e ∈ filters, e.1 = t ∧ msg.arbitration_id ∈ e.2 ∧ (tq t).isSome) →
      (dispatchOne Frame.arbitration_id filters tq msg).1 t = tq t := by
  constructor
  · have h := @foldl_dispatchStep_routed Frame Frame.arbitration_id msg filters tq false
    simpa [dispatchOne] using h
  · intro t ht
    rw [dispatchOne_queue filters hnd tq msg t]
    by_cases hm : ∃ e ∈ filters, e.1 = t ∧ msg.arbitration_id ∈ e.2
    · rw [if_pos hm]
      cases hq : tq t with
      | none => rfl
      | some q =>
        obtain ⟨e, he, h1, h2⟩ := hm
        exact absurd ⟨e, he, h1, h2, by simp [hq]⟩ ht
    · rw [if_neg hm]

/-- Witness for C10: a frame with id `0x300` matches only the entry for
the never-registered task `ghost`: the `routed` flag is false (debug
log only) and `ghost`'s queue stays absent. -/
theorem claim10_unregistered_entry_silent_witness :
    ((dispatchOne Frame.arbitration_id filtersGhost tqTwoTasks frame300).2 =
      (filtersGhost.any fun e =>
        decide (frame300.arbitration_id ∈ e.2) && (tqTwoTasks e.1).isSome)) ∧
    (dispatchOne Frame.arbitration_id filtersGhost tqTwoTasks frame300).1 "ghost" =
      tqTwoTasks "ghost" :=
  ⟨(claim10_unregistered_entry_silent filtersGhost (by decide) tqTwoTasks frame300).1,
    (claim10_unregistered_entry_silent filtersGhost (by decide) tqTwoTasks
      frame300).2 "ghost" (by decide)⟩

/-- Claim C2: a worker whose processing function returns a `k`-byte
result (`k ≤ 8`) for a message, with `M ≥ 1` configured output ids,
appends to the outgoing queue exactly `M` newly built frames — each a
standard (non-extended, non-remote) frame carrying one configured
output id and the result as payload — and a `None` result (function
`g`) appends nothing. -/
theorem claim2_worker_emission
    (f g : Frame → Except PyErr (Option (List Nat))) (msg : Frame)
    (result : List Nat) (ids : List Nat) (outgoing : List Frame) (k M : Nat)
    (hres : f msg = Except.ok (some result)) (hk : result.length = k)
    (hk8 : k ≤ 8) (hM : ids.length = M) (hM1 : 1 ≤ M)
    (hg : g msg = Except.ok none) :
    workerProcessOne f (some ids) outgoing msg =
      outgoing ++ ids.map (fun output_id => mkResponse output_id result) ∧
    (ids.map fun output_id => mkResponse output_id result).length = M ∧
    (∀ fr ∈ ids.map fun output_id => mkResponse output_id result,
      fr.is_extended_id = false ∧ fr.is_remote_frame = false ∧
      fr.data = result ∧ fr.arbitration_id ∈ ids) ∧
    workerProcessOne g (some ids) outgoing msg = outgoing := by
  have hne : ids.isEmpty = false := by
    cases ids with
    | nil => rw [List.length_nil] at hM; omega
    | cons a l => rfl
  refine ⟨?_, ?_, ?_, ?_⟩
  · simp [workerProcessOne, hres, hne]
  · simp [hM]
  · intro fr hfr
    obtain ⟨oid, hoid, hfr'⟩ := List.mem_map.mp hfr
    subst hfr'
    exact ⟨rfl, rfl, rfl, hoid⟩
  · simp [workerProcessOne, hg]

/-- Witness for C2: the inverting handler on `frame100`
(`data = [0x00, 0xFF]`) with output ids `[0x300, 0x301]` produces the
two standard response frames; the always-`None` handler produces
nothing. -/
theorem claim2_worker_emission_witness :
    workerProcessOne funcInvert (some [0x300, 0x301]) [] frame100 =
      [] ++ [0x300, 0x301].map (fun output_id => mkResponse output_id [0xFF, 0x00]) ∧
    ([0x300, 0x301].map fun output_id => mkResponse output_id [0xFF, 0x00]).length = 2 ∧
    (∀ fr ∈ [0x300, 0x301].map fun output_id => mkResponse output_id [0xFF, 0x00],
      fr.is_extended_id = false ∧ fr.is_remote_frame = false ∧
      fr.data = [0xFF, 0x00] ∧ fr.arbitration_id ∈ [0x300, 0x301]) ∧
    workerProcessOne funcNone (some [0x300, 0x301]) [] frame100 = [] :=
  claim2_worker_emission funcInvert funcNone frame100 [0xFF, 0x00]
    [0x300, 0x301] [] 2 2 rfl rfl (by decide) rfl (by decide) rfl

/-- Claim C6: an exception raised by the processing function on message
`X` is caught per-message (the worker run is a total function — the
`except Exception` handler swallows the error and logs), and the loop
goes on to dequeue and process the remaining messages exactly as if `X`
had not been there; the equation concerns only this task's own queue
and outgoing contributions, other tasks' workers and queues being
separate folds over separate queues by construction. -/
theorem claim6_handler_fault_isolated
    (f : Frame → Except PyErr (Option (List Nat)))
    (output_node_ids : Option (List Nat)) (outgoing : List Frame)
    (xs ys : List Frame) (X : Frame) (hX : ∃ err, f X = Except.error err) :
    workerRun f output_node_ids outgoing (xs ++ X :: ys) =
      workerRun f output_node_ids outgoing (xs ++ ys) := by
  obtain ⟨err, herr⟩ := hX
  simp [workerRun, List.foldl_append, workerProcessOne, herr]

/-- Witness for C6: the handler raising on `frameZero` still lets the
worker process `frame200` before and `frame100` after the poisoned
message. -/
theorem claim6_handler_fault_isolated_witness :
    workerRun funcRaisesOnZero (some [0x300]) [] ([frame200] ++ frameZero :: [frame100]) =
      workerRun funcRaisesOnZero (some [0x300]) [] ([frame200] ++ [frame100]) :=
  claim6_handler_fault_isolated funcRaisesOnZero (some [0x300]) []
    [frame200] [frame100] frameZero ⟨PyErr.exc "boom", rfl⟩

/-- Claim C5 (amended): `_read_can_bus` wraps `bus.recv` in no
`try`/`except`, so an error raised by `receive` propagates out of the
loop and terminates the ingress reader; only a timeout (`None`) or a
received frame lets the loop continue. -/
theorem claim5_receive_error_propagates (err : PyErr)
    (recvs : List (Except PyErr (Option Frame))) (incoming : List Frame)
    (m : Frame) :
    readerRun (Except.error err :: recvs) incoming = Except.error err ∧
    readerRun (Except.ok none :: recvs) incoming = readerRun recvs incoming ∧
    readerRun (Except.ok (some m) :: recvs) incoming =
      readerRun recvs (incoming ++ [m]) :=
  ⟨rfl, rfl, rfl⟩

/-- Counterexample for C5 as stated: a `receive` trace that raises once
and then offers a frame does *not* continue to the next iteration — the
run ends with the propagated error, and the follow-up frame is never
enqueued (contrast the timeout trace, which does continue). -/
theorem claim5_cex :
    readerRun [Except.error PyErr.canError, Except.ok (some frame200)] [] =
      Except.error PyErr.canError ∧
    readerRun [Except.ok none, Except.ok (some frame200)] [] =
      Except.ok [frame200] :=
  ⟨rfl, rfl⟩

/-- Claim C3 (amended): `add_processing_task` performs no precondition
check at all — it never raises, before or after `start()`, fresh name
or not; it unconditionally installs a fresh empty queue under the name
(replacing any existing queue, whose pending frames are orphaned) and
returns the worker closure. -/
theorem claim3_registration_unconditional (st : ManagerState)
    (task_name : String) (input_node_ids : List Nat)
    (processing_func : Frame → Except PyErr (Option (List Nat)))
    (output_node_ids : Option (List Nat)) :
    add_processing_task st task_name input_node_ids processing_func
        output_node_ids =
      Except.ok
        ({ st with
            task_queues := fun n =>
              if n = task_name then some [] else st.task_queues n },
          { task_name := task_name
            input_node_ids := input_node_ids
            processing_func := processing_func
            output_node_ids := output_node_ids }) :=
  rfl

/-- Counterexample for C3 as stated: registering `task_1` a second time,
on a manager whose `start()` has already spawned threads and whose
`task_1` queue holds a pending frame, succeeds (`Except.ok`, never
`ConfigurationError`) and silently replaces the old queue with a fresh
empty one. -/
theorem claim3_cex :
    ((add_processing_task stStarted "task_1" [0x100, 0x101, 0x102] funcNone
        (some [0x300])).toOption.isSome = true) ∧
    ((add_processing_task stStarted "task_1" [0x100, 0x101, 0x102] funcNone
        (some [0x300])).toOption.map fun p => p.1.task_queues "task_1") =
      some (some []) ∧
    stStarted.task_queues "task_1" = some [frame200] ∧
    stStarted.threads ≠ [] :=
  ⟨rfl, rfl, rfl, by decide⟩

/-- Claim C4 (amended): when `self.bus` is still `None`, `start` logs an
error and returns `False` — it raises nothing (the source defines no
`NotInitializedError`); when the bus is live it returns `True` after
appending the reader, sender and dispatcher threads and one worker
thread per entry of `processing_tasks`, i.e. `3 + N` new execution
contexts. -/
theorem claim4_start_behavior (st : ManagerState)
    (node_filters : List (String × List Nat))
    (processing_tasks : List TaskSpec) :
    (st.busInitialized = false →
      start st node_filters processing_tasks = Except.ok (false, st)) ∧
    (st.busInitialized = true →
      start st node_filters processing_tasks =
        Except.ok (true,
          { st with
              threads := st.threads ++
                [ThreadKind.reader, ThreadKind.sender,
                  ThreadKind.dispatcher node_filters] ++
                processing_tasks.map fun _ => ThreadKind.worker }) ∧
      (st.threads ++
        [ThreadKind.reader, ThreadKind.sender,
          ThreadKind.dispatcher node_filters] ++
        processing_tasks.map fun _ => ThreadKind.worker).length =
          st.threads.length + 3 + processing_tasks.length) := by
  constructor
  · intro h
    simp [start, h]
  · intro h
    constructor
    · simp [start, h]
    · simp
      omega

/-- Witness for C4: both branches at concrete states — the uninitialized
manager gets `False` back, the started manager's `start` appends the
three core threads (no tasks passed here). -/
theorem claim4_start_behavior_witness :
    start stNoBus filtersTwoTasks [] = Except.ok (false, stNoBus) ∧
    (start stStarted filtersTwoTasks [] =
      Except.ok (true,
        { stStarted with
            threads := stStarted.threads ++
              [ThreadKind.reader, ThreadKind.sender,
                ThreadKind.dispatcher filtersTwoTasks] ++
              ([] : List TaskSpec).map fun _ => ThreadKind.worker }) ∧
    (stStarted.threads ++
      [ThreadKind.reader, ThreadKind.sender,
        ThreadKind.dispatcher filtersTwoTasks] ++
      ([] : List TaskSpec).map fun _ => ThreadKind.worker).length =
        stStarted.threads.length + 3 + ([] : List TaskSpec).length) :=
  ⟨(claim4_start_behavior stNoBus filtersTwoTasks []).1 rfl,
    (claim4_start_behavior stStarted filtersTwoTasks []).2 rfl⟩

/-- Counterexample for C4 as stated: with no live bus, `start` returns
`Except.ok (false, ...)` — a logged failure and a `False` return value,
not a raised `NotInitializedError`. -/
theorem claim4_cex :
    start stNoBus filtersTwoTasks [] = Except.ok (false, stNoBus) ∧
    start stNoBus filtersTwoTasks [] ≠ Except.error PyErr.notInitializedError := by
  refine ⟨rfl, ?_⟩
  intro h
  rw [show start stNoBus filtersTwoTasks [] = Except.ok (false, stNoBus) from rfl] at h
  exact Except.noConfusion h

/-- Claim C7 (amended): `stop` takes no `drain_timeout` argument; it
sets the stop signal, then joins every spawned thread with the fixed
timeout `2.0` seconds (2000 ms) each, then shuts the bus down (when one
was initialized) — and it force-kills nothing: its action trace
contains only the set/join/shutdown events. -/
theorem claim7_stop_behavior (st : ManagerState) :
    stop st =
      ({ st with stopEventSet := true },
        StopEvent.setStopSignal ::
          (st.threads.map (fun t => StopEvent.joinThread t 2000) ++
            if st.busInitialized then [StopEvent.shutdownBus] else [])) ∧
    ((stop st).2.countP fun ev =>
      match ev with
      | StopEvent.forceKillThread _ => true
      | _ => false) = 0 := by
  refine ⟨rfl, ?_⟩
  rw [List.countP_eq_zero]
  intro ev hev
  cases hb : st.busInitialized <;> simp [stop, hb] at hev
  · rcases hev with rfl | ⟨t, _ht, rfl⟩ <;> simp
  · rcases hev with rfl | ⟨t, _ht, rfl⟩ | rfl <;> simp

/-- Counterexample for C7 as stated: on a started manager, the action
trace of the source's `stop` (fixed 2000 ms joins) differs from the
trace the spec's `stop(drain_timeout)` interface prescribes for a
caller-chosen 5000 ms drain timeout — the code cannot honour a
`drain_timeout` argument it does not take. -/
theorem claim7_cex : (stop stStarted).2 ≠ (stopSpec 5000 stStarted).2 := by
  decide
